import Mathlib

/-!
# Verification of the C-ABI wrapper `text_to_image_wrapper.cpp`

Shallow embedding of `src/flux2_ui/lib/cpp_wrappers/text_to_image_wrapper.cpp`.

Conventions of the embedding.

* A C pointer that may be null is an `Option`: `none` is `NULL`.
* A `const char *` that is not null points to a NUL-terminated string; it is
  represented by its content (the characters before the terminator), so the
  test `s[0] == 0` of the source is the test `s = ""`.
* `int` and `int64_t` values are integers (`Int`); the wrapper only compares
  them with zero and copies them, so no arithmetic can overflow.
* The runtime behind `flux.h` is external.  Every call the wrapper makes to it
  is recorded, in order, in a trace (`List Call`).  What the runtime answers to
  a value-returning call is given by a `Collaborator`, whose answers may depend
  on the whole history of calls made so far and on the arguments.
* Every wrapper function takes the trace so far and returns its result
  together with the extended trace.
-/

namespace Flux2

/-- A non-null `flux_ctx *`, identified by its address. -/
abbrev flux_ctx := Nat

/-- A non-null `flux_image *`, identified by its address. -/
abbrev flux_image := Nat

/-- The wrapper's own parameter record (`flux2_params`, lines 7-14). -/
structure flux2_params where
  width : Int
  height : Int
  num_steps : Int
  seed : Int
  use_mmap : Int
  release_text_encoder : Int
  deriving DecidableEq, Repr

/-- Modelled from the spec: the record `flux_params` is declared in `flux.h`,
which is not part of the sources.  The spec calls it CollaboratorConfig, "the
runtime's native configuration record".  Only the four fields the wrapper
reads or writes are represented; any other field keeps the value it has in
`FLUX_PARAMS_DEFAULT` on every path, since the wrapper never assigns it.  The
seed field is taken to be as wide as the wrapper's `int64_t` seed ("`seed` has
no sentinel, it is always applied verbatim"), so the assignment of line 30 and
the argument of line 78 copy the value unchanged. -/
structure flux_params where
  width : Int
  height : Int
  num_steps : Int
  seed : Int
  deriving DecidableEq, Repr

/-- One call made to the runtime, with its arguments. -/
inductive Call where
  | load_dir (model_dir : String)
  | set_mmap (ctx : flux_ctx) (enable : Int)
  | free (ctx : flux_ctx)
  | get_error
  | generate (ctx : flux_ctx) (prompt : String) (params : flux_params)
  | image_save_with_seed (img : flux_image) (path : String) (seed : Int)
  | image_free (img : flux_image)
  | release_text_encoder (ctx : flux_ctx)
  deriving DecidableEq, Repr

/-- The answers of the runtime to the calls that return a value.  The first
argument of each field is the history of calls made before this one.
`flux_generate` receives the configuration through a pointer to `const`, so it
is an input only. -/
structure Collaborator where
  flux_load_dir : List Call → String → Option flux_ctx
  flux_generate : List Call → flux_ctx → String → flux_params → Option flux_image
  flux_image_save_with_seed : List Call → flux_image → String → Int → Int
  flux_get_error : List Call → Option String

/-- Source lines 16-32.  `dflt` is the value of the macro `FLUX_PARAMS_DEFAULT`
of `flux.h`. -/
def flux2_to_flux_params (dflt : flux_params) (params : Option flux2_params) : flux_params :=
  let out := dflt
  match params with
  | none => out
  | some p =>
    let out := if p.width > 0 then { out with width := p.width } else out
    let out := if p.height > 0 then { out with height := p.height } else out
    let out := if p.num_steps > 0 then { out with num_steps := p.num_steps } else out
    { out with seed := p.seed }

/-- The argument `params->use_mmap ? 1 : 0` of lines 43 and 70. -/
def mmap_flag (p : flux2_params) : Int :=
  if p.use_mmap ≠ 0 then 1 else 0

/-- Source lines 34-46. -/
def flux2_load_model (K : Collaborator) (model_dir : Option String)
    (params : Option flux2_params) (tr : List Call) : Option flux_ctx × List Call :=
  match model_dir with
  | none => (none, tr)
  | some dir =>
    if dir = "" then (none, tr)
    else
      match K.flux_load_dir tr dir with
      | none => (none, tr ++ [Call.load_dir dir])
      | some ctx =>
        let tr := tr ++ [Call.load_dir dir]
        let tr := match params with
          | some p => tr ++ [Call.set_mmap ctx (mmap_flag p)]
          | none => tr
        (some ctx, tr)

/-- Source lines 48-52. -/
def flux2_free_model (ctx : Option flux_ctx) (tr : List Call) : Unit × List Call :=
  match ctx with
  | some c => ((), tr ++ [Call.free c])
  | none => ((), tr)

/-- Source lines 54-56. -/
def flux2_last_error (K : Collaborator) (tr : List Call) : Option String × List Call :=
  (K.flux_get_error tr, tr ++ [Call.get_error])

/-- Source lines 58-86. -/
def flux2_generate_to_file (K : Collaborator) (dflt : flux_params)
    (ctx : Option flux_ctx) (prompt : Option String) (output_path : Option String)
    (params : Option flux2_params) (tr : List Call) : Int × List Call :=
  match ctx, prompt, output_path with
  | some c, some pr, some out =>
    if pr = "" ∨ out = "" then (-1, tr)
    else
      let fluxParams := flux2_to_flux_params dflt params
      let tr := match params with
        | some p => tr ++ [Call.set_mmap c (mmap_flag p)]
        | none => tr
      match K.flux_generate tr c pr fluxParams with
      | none => (-2, tr ++ [Call.generate c pr fluxParams])
      | some img =>
        let tr := tr ++ [Call.generate c pr fluxParams]
        let save_result := K.flux_image_save_with_seed tr img out fluxParams.seed
        let tr := tr ++ [Call.image_save_with_seed img out fluxParams.seed]
        let tr := tr ++ [Call.image_free img]
        let tr := match params with
          | some p =>
            if p.release_text_encoder ≠ 0 then tr ++ [Call.release_text_encoder c] else tr
          | none => tr
        (if save_result = 0 then 0 else -3, tr)
  | _, _, _ => (-1, tr)

/-- Source lines 88-104. -/
def flux2_generate_to_file_with_model (K : Collaborator) (dflt : flux_params)
    (model_dir : Option String) (prompt : Option String) (output_path : Option String)
    (params : Option flux2_params) (tr : List Call) : Int × List Call :=
  match model_dir with
  | none => (-1, tr)
  | some dir =>
    if dir = "" then (-1, tr)
    else
      match flux2_load_model K model_dir params tr with
      | (none, tr) => (-2, tr)
      | (some ctx, tr) =>
        let (result, tr) := flux2_generate_to_file K dflt (some ctx) prompt output_path params tr
        let (_, tr) := flux2_free_model (some ctx) tr
        (result, tr)

/-! ## Vocabulary for the statements -/

/-- The calls of the mmap toggle of lines 69-71 (and 42-44): one call when a
configuration is supplied, none when it is omitted. -/
def mmap_calls (c : flux_ctx) : Option flux2_params → List Call
  | some p => [Call.set_mmap c (mmap_flag p)]
  | none => []

/-- The calls of the text-encoder release of lines 81-83: one call when a
configuration is supplied and its `release_text_encoder` is not zero. -/
def release_calls (c : flux_ctx) : Option flux2_params → List Call
  | some p => if p.release_text_encoder ≠ 0 then [Call.release_text_encoder c] else []
  | none => []

/-- A runtime on which everything succeeds: load yields handle 1, generate
yields image 2, save reports 0. -/
def runtime_ok : Collaborator :=
  ⟨fun _ _ => some 1, fun _ _ _ _ => some 2, fun _ _ _ _ => 0, fun _ => none⟩

/-- A runtime on which load and generate succeed and save reports failure. -/
def runtime_save_fails : Collaborator :=
  ⟨fun _ _ => some 1, fun _ _ _ _ => some 2, fun _ _ _ _ => 1, fun _ => none⟩

/-- A runtime on which load succeeds and generate yields no image. -/
def runtime_generate_fails : Collaborator :=
  ⟨fun _ _ => some 1, fun _ _ _ _ => none, fun _ _ _ _ => 0, fun _ => none⟩

/-- A runtime on which load fails. -/
def runtime_load_fails : Collaborator :=
  ⟨fun _ _ => none, fun _ _ _ _ => none, fun _ _ _ _ => 1, fun _ => some "load failed"⟩

/-- Some defaults for `FLUX_PARAMS_DEFAULT`, used in the concrete instances. -/
def sample_default : flux_params := ⟨256, 256, 4, -1⟩

/-- The configuration of the scenarios of the specification. -/
def scenario_config : flux2_params := ⟨-1, -1, -1, 42, 1, 0⟩

/-! ## General facts about the wrapper -/

/-- The whole behaviour of `flux2_generate_to_file` on valid arguments. -/
theorem generate_to_file_valid (K : Collaborator) (dflt : flux_params) (c : flux_ctx)
    (pr out : String) (params : Option flux2_params) (tr : List Call)
    (hp : pr ≠ "") (ho : out ≠ "") :
    flux2_generate_to_file K dflt (some c) (some pr) (some out) params tr =
      match K.flux_generate (tr ++ mmap_calls c params) c pr (flux2_to_flux_params dflt params) with
      | none =>
        (-2, tr ++ mmap_calls c params ++ [Call.generate c pr (flux2_to_flux_params dflt params)])
      | some img =>
        (if K.flux_image_save_with_seed
              (tr ++ mmap_calls c params ++ [Call.generate c pr (flux2_to_flux_params dflt params)])
              img out (flux2_to_flux_params dflt params).seed = 0 then 0 else -3,
          tr ++ mmap_calls c params ++
            [Call.generate c pr (flux2_to_flux_params dflt params),
             Call.image_save_with_seed img out (flux2_to_flux_params dflt params).seed,
             Call.image_free img] ++ release_calls c params) := by
  cases params with
  | none =>
    simp only [flux2_generate_to_file, hp, ho, or_self, if_false, mmap_calls, release_calls,
      List.append_nil]
    cases K.flux_generate tr c pr (flux2_to_flux_params dflt none) <;> simp
  | some p =>
    simp only [flux2_generate_to_file, hp, ho, or_self, if_false, mmap_calls, release_calls]
    cases K.flux_generate (tr ++ [Call.set_mmap c (mmap_flag p)]) c pr
        (flux2_to_flux_params dflt (some p)) with
    | none => simp
    | some img => by_cases hr : p.release_text_encoder = 0 <;> simp [hr]

/-- On arguments that fail validation nothing is called and the result is -1. -/
theorem generate_to_file_invalid (K : Collaborator) (dflt : flux_params)
    (ctx : Option flux_ctx) (prompt output_path : Option String)
    (params : Option flux2_params) (tr : List Call)
    (h : ctx = none ∨ prompt = none ∨ prompt = some "" ∨
      output_path = none ∨ output_path = some "") :
    flux2_generate_to_file K dflt ctx prompt output_path params tr = (-1, tr) := by
  cases ctx <;> cases prompt <;> cases output_path <;>
    simp_all [flux2_generate_to_file]

/-- The fields of the merged configuration. -/
theorem to_flux_params_some (dflt : flux_params) (p : flux2_params) :
    flux2_to_flux_params dflt (some p) =
      ⟨if p.width > 0 then p.width else dflt.width,
       if p.height > 0 then p.height else dflt.height,
       if p.num_steps > 0 then p.num_steps else dflt.num_steps,
       p.seed⟩ := by
  unfold flux2_to_flux_params
  by_cases h1 : p.width > 0 <;> by_cases h2 : p.height > 0 <;>
    by_cases h3 : p.num_steps > 0 <;> simp [h1, h2, h3]

/-- The mmap toggle only ever issues `flux_set_mmap` calls. -/
theorem mem_mmap_calls {c : flux_ctx} {params : Option flux2_params} {x : Call}
    (h : x ∈ mmap_calls c params) : ∃ f, x = Call.set_mmap c f := by
  cases params with
  | none => simp [mmap_calls] at h
  | some p => exact ⟨mmap_flag p, by simpa [mmap_calls] using h⟩

/-- The text-encoder release only ever issues `flux_release_text_encoder` calls. -/
theorem mem_release_calls {c : flux_ctx} {params : Option flux2_params} {x : Call}
    (h : x ∈ release_calls c params) : x = Call.release_text_encoder c := by
  cases params with
  | none => simp [release_calls] at h
  | some p =>
    by_cases hr : p.release_text_encoder = 0
    · simp [release_calls, hr] at h
    · simpa [release_calls, hr] using h

/-- Whatever its arguments, `flux2_generate_to_file` only extends the trace,
never calls `flux_free`, and returns one of the four status codes. -/
theorem generate_to_file_no_free (K : Collaborator) (dflt : flux_params)
    (ctx : Option flux_ctx) (prompt output_path : Option String)
    (params : Option flux2_params) (tr : List Call) :
    ∃ ev, (flux2_generate_to_file K dflt ctx prompt output_path params tr).2 = tr ++ ev ∧
      (∀ x ∈ ev, ∀ h2, x ≠ Call.free h2) ∧
      ((flux2_generate_to_file K dflt ctx prompt output_path params tr).1 = 0 ∨
        (flux2_generate_to_file K dflt ctx prompt output_path params tr).1 = -1 ∨
        (flux2_generate_to_file K dflt ctx prompt output_path params tr).1 = -2 ∨
        (flux2_generate_to_file K dflt ctx prompt output_path params tr).1 = -3) := by
  by_cases hv : ctx = none ∨ prompt = none ∨ prompt = some "" ∨
      output_path = none ∨ output_path = some ""
  · rw [generate_to_file_invalid K dflt ctx prompt output_path params tr hv]
    exact ⟨[], by simp, by simp, by simp⟩
  · simp only [not_or] at hv
    obtain ⟨h1, h2, h3, h4, h5⟩ := hv
    obtain ⟨c, rfl⟩ := Option.ne_none_iff_exists'.mp h1
    obtain ⟨pr, rfl⟩ := Option.ne_none_iff_exists'.mp h2
    obtain ⟨out, rfl⟩ := Option.ne_none_iff_exists'.mp h4
    have hp : pr ≠ "" := fun e => h3 (by rw [e])
    have ho : out ≠ "" := fun e => h5 (by rw [e])
    rw [generate_to_file_valid K dflt c pr out params tr hp ho]
    cases K.flux_generate (tr ++ mmap_calls c params) c pr (flux2_to_flux_params dflt params) with
    | none =>
      refine ⟨mmap_calls c params ++ [Call.generate c pr (flux2_to_flux_params dflt params)],
        by simp, ?_, by simp⟩
      intro x hx h2 hxe
      subst hxe
      simp only [List.mem_append, List.mem_singleton] at hx
      rcases hx with hx | hx
      · obtain ⟨f, hf⟩ := mem_mmap_calls hx
        cases hf
      · cases hx
    | some img =>
      refine ⟨mmap_calls c params ++
        [Call.generate c pr (flux2_to_flux_params dflt params),
         Call.image_save_with_seed img out (flux2_to_flux_params dflt params).seed,
         Call.image_free img] ++ release_calls c params, by simp, ?_, ?_⟩
      · intro x hx h2 hxe
        subst hxe
        simp only [List.mem_append, List.mem_cons, List.mem_singleton, List.not_mem_nil,
          or_false] at hx
        rcases hx with (hx | hx | hx | hx) | hx
        · obtain ⟨f, hf⟩ := mem_mmap_calls hx
          cases hf
        · cases hx
        · cases hx
        · cases hx
        · cases mem_release_calls hx
      · dsimp only
        split_ifs <;> simp

/-- The whole behaviour of `flux2_load_model` on a non-empty directory. -/
theorem load_model_nonempty (K : Collaborator) (dir : String) (params : Option flux2_params)
    (tr : List Call) (hd : dir ≠ "") :
    flux2_load_model K (some dir) params tr =
      match K.flux_load_dir tr dir with
      | none => (none, tr ++ [Call.load_dir dir])
      | some h => (some h, tr ++ [Call.load_dir dir] ++ mmap_calls h params) := by
  simp only [flux2_load_model, hd, if_false]
  cases K.flux_load_dir tr dir with
  | none => rfl
  | some h => cases params <;> simp [mmap_calls]

/-- The whole behaviour of `flux2_generate_to_file_with_model` on a non-empty
directory, in terms of the delegated call. -/
theorem with_model_nonempty (K : Collaborator) (dflt : flux_params) (dir : String)
    (prompt output_path : Option String) (params : Option flux2_params) (tr : List Call)
    (hd : dir ≠ "") :
    flux2_generate_to_file_with_model K dflt (some dir) prompt output_path params tr =
      match K.flux_load_dir tr dir with
      | none => (-2, tr ++ [Call.load_dir dir])
      | some h =>
        ((flux2_generate_to_file K dflt (some h) prompt output_path params
            (tr ++ [Call.load_dir dir] ++ mmap_calls h params)).1,
         (flux2_generate_to_file K dflt (some h) prompt output_path params
            (tr ++ [Call.load_dir dir] ++ mmap_calls h params)).2 ++ [Call.free h]) := by
  simp only [flux2_generate_to_file_with_model, hd, if_false]
  rw [load_model_nonempty K dir params tr hd]
  cases K.flux_load_dir tr dir with
  | none => rfl
  | some h => rfl

/-! ## The claims -/

/-- C1: for a supplied configuration `c`, each of `width`, `height` and
`num_steps` of the merged configuration is the caller's value when that value
is positive and the default of `FLUX_PARAMS_DEFAULT` when it is zero or
negative, independently per field; and on valid arguments
`flux2_generate_to_file` makes exactly one `flux_generate` call, which carries
that merged configuration. -/
theorem C1_merged_dimensions (K : Collaborator) (dflt : flux_params) (c : flux2_params)
    (h : flux_ctx) (prompt out : String) (tr : List Call)
    (hp : prompt ≠ "") (ho : out ≠ "") :
    ((0 < c.width → (flux2_to_flux_params dflt (some c)).width = c.width) ∧
      (c.width ≤ 0 → (flux2_to_flux_params dflt (some c)).width = dflt.width)) ∧
    ((0 < c.height → (flux2_to_flux_params dflt (some c)).height = c.height) ∧
      (c.height ≤ 0 → (flux2_to_flux_params dflt (some c)).height = dflt.height)) ∧
    ((0 < c.num_steps → (flux2_to_flux_params dflt (some c)).num_steps = c.num_steps) ∧
      (c.num_steps ≤ 0 → (flux2_to_flux_params dflt (some c)).num_steps = dflt.num_steps)) ∧
    ∃ post,
      (flux2_generate_to_file K dflt (some h) (some prompt) (some out) (some c) tr).2 =
        tr ++ [Call.set_mmap h (mmap_flag c),
               Call.generate h prompt (flux2_to_flux_params dflt (some c))] ++ post ∧
      ∀ x ∈ post, ∀ h2 q m, x ≠ Call.generate h2 q m := by
  rw [to_flux_params_some]
  refine ⟨⟨fun hw => by simp [hw], fun hw => by simp [not_lt.mpr hw]⟩,
    ⟨fun hw => by simp [hw], fun hw => by simp [not_lt.mpr hw]⟩,
    ⟨fun hw => by simp [hw], fun hw => by simp [not_lt.mpr hw]⟩, ?_⟩
  rw [generate_to_file_valid K dflt h prompt out (some c) tr hp ho, to_flux_params_some]
  cases K.flux_generate (tr ++ mmap_calls h (some c)) h prompt _ with
  | none => exact ⟨[], by simp [mmap_calls]⟩
  | some img =>
    refine ⟨[Call.image_save_with_seed img out c.seed, Call.image_free img] ++
      release_calls h (some c), by simp [mmap_calls], ?_⟩
    intro x hx h2 q m hxe
    subst hxe
    simp only [List.mem_append, List.mem_cons, List.mem_singleton, List.not_mem_nil,
      or_false] at hx
    rcases hx with (hx | hx) | hx
    · cases hx
    · cases hx
    · cases mem_release_calls hx

/-- C1 at the scenario configuration (all three fields are -1) on a runtime
where everything succeeds. -/
theorem C1_merged_dimensions_witness :
    ("a red fox" ≠ "" ∧ "out.png" ≠ "") ∧
    (flux2_to_flux_params sample_default (some scenario_config)).width = 256 ∧
    (flux2_to_flux_params sample_default (some ⟨512, 0, 7, 42, 1, 0⟩)).width = 512 ∧
    (flux2_to_flux_params sample_default (some ⟨512, 0, 7, 42, 1, 0⟩)).height = 256 ∧
    (flux2_to_flux_params sample_default (some ⟨512, 0, 7, 42, 1, 0⟩)).num_steps = 7 :=
  ⟨⟨by decide, by decide⟩,
    (C1_merged_dimensions runtime_ok sample_default scenario_config 1 "a red fox" "out.png" []
      (by decide) (by decide)).1.2 (by decide),
    (C1_merged_dimensions runtime_ok sample_default ⟨512, 0, 7, 42, 1, 0⟩ 1 "a red fox" "out.png" []
      (by decide) (by decide)).1.1 (by decide),
    (C1_merged_dimensions runtime_ok sample_default ⟨512, 0, 7, 42, 1, 0⟩ 1 "a red fox" "out.png" []
      (by decide) (by decide)).2.1.2 (by decide),
    (C1_merged_dimensions runtime_ok sample_default ⟨512, 0, 7, 42, 1, 0⟩ 1 "a red fox" "out.png" []
      (by decide) (by decide)).2.2.1.1 (by decide)⟩

/-- C2: for a supplied configuration the seed of the merged configuration is
the caller's seed, whatever its value (zero and negative values included) and
whatever the other fields and the defaults are. -/
theorem C2_seed_verbatim (dflt : flux_params) (c : flux2_params) :
    (flux2_to_flux_params dflt (some c)).seed = c.seed := by
  rw [to_flux_params_some]

/-- C3: on valid arguments, when `flux_generate` yields an image, the seed
passed to `flux_image_save_with_seed` is the seed field of the configuration
passed to `flux_generate` in the same call; that seed is the caller's seed
when a configuration is supplied and the default seed when it is omitted.
There is exactly one save call. -/
theorem C3_save_seed_is_generate_seed (K : Collaborator) (dflt : flux_params) (h : flux_ctx)
    (prompt out : String) (params : Option flux2_params) (tr : List Call) (img : flux_image)
    (hp : prompt ≠ "") (ho : out ≠ "")
    (hg : K.flux_generate (tr ++ mmap_calls h params) h prompt
      (flux2_to_flux_params dflt params) = some img) :
    (∃ post,
      (flux2_generate_to_file K dflt (some h) (some prompt) (some out) params tr).2 =
        tr ++ mmap_calls h params ++
          [Call.generate h prompt (flux2_to_flux_params dflt params),
           Call.image_save_with_seed img out (flux2_to_flux_params dflt params).seed] ++ post ∧
      ∀ x ∈ post, ∀ a q s, x ≠ Call.image_save_with_seed a q s) ∧
    (∀ x ∈ mmap_calls h params, ∀ a q s, x ≠ Call.image_save_with_seed a q s) ∧
    (flux2_to_flux_params dflt params).seed =
      (match params with
       | some c => c.seed
       | none => dflt.seed) := by
  refine ⟨⟨[Call.image_free img] ++ release_calls h params, ?_, ?_⟩, ?_, ?_⟩
  · rw [generate_to_file_valid K dflt h prompt out params tr hp ho, hg]
    simp
  · intro x hx a q s hxe
    subst hxe
    simp only [List.mem_append, List.mem_singleton] at hx
    rcases hx with hx | hx
    · cases hx
    · cases mem_release_calls hx
  · intro x hx a q s hxe
    subst hxe
    obtain ⟨f, hf⟩ := mem_mmap_calls hx
    cases hf
  · cases params with
    | none => rfl
    | some c => rw [to_flux_params_some]

/-- C3 with the configuration omitted: the save call carries the default seed. -/
theorem C3_save_seed_is_generate_seed_witness :
    ("a red fox" ≠ "" ∧ "out.png" ≠ "" ∧
      runtime_ok.flux_generate ([] ++ mmap_calls 1 none) 1 "a red fox"
        (flux2_to_flux_params sample_default none) = some 2) ∧
    (flux2_to_flux_params sample_default none).seed = sample_default.seed :=
  ⟨⟨by decide, by decide, rfl⟩,
    (C3_save_seed_is_generate_seed runtime_ok sample_default 1 "a red fox" "out.png" none [] 2
      (by decide) (by decide) rfl).2.2⟩

/-- C4: when the handle is null, or the prompt is null or empty, or the output
path is null or empty, `flux2_generate_to_file` returns -1 and the trace is
unchanged: no call at all is made to the runtime. -/
theorem C4_invalid_arguments (K : Collaborator) (dflt : flux_params)
    (ctx : Option flux_ctx) (prompt output_path : Option String)
    (params : Option flux2_params) (tr : List Call)
    (h : ctx = none ∨ prompt = none ∨ prompt = some "" ∨
      output_path = none ∨ output_path = some "") :
    flux2_generate_to_file K dflt ctx prompt output_path params tr = (-1, tr) :=
  generate_to_file_invalid K dflt ctx prompt output_path params tr h

/-- C4 with a valid handle and prompt and an empty output path. -/
theorem C4_invalid_arguments_witness :
    ((some 1 : Option flux_ctx) = none ∨ some "a red fox" = (none : Option String) ∨
      some "a red fox" = some "" ∨ some "" = (none : Option String) ∨ some "" = some "") ∧
    flux2_generate_to_file runtime_ok sample_default (some 1) (some "a red fox") (some "")
      (some scenario_config) [] = (-1, []) :=
  ⟨Or.inr (Or.inr (Or.inr (Or.inr rfl))),
    C4_invalid_arguments runtime_ok sample_default (some 1) (some "a red fox") (some "")
      (some scenario_config) [] (Or.inr (Or.inr (Or.inr (Or.inr rfl))))⟩

/-- C5: on valid arguments, when `flux_generate` yields no image, the result
is -2 and the calls made are the mmap toggle (if a configuration is supplied)
and the generate call only: no save call and no image release. -/
theorem C5_generation_failure (K : Collaborator) (dflt : flux_params) (h : flux_ctx)
    (prompt out : String) (params : Option flux2_params) (tr : List Call)
    (hp : prompt ≠ "") (ho : out ≠ "")
    (hg : K.flux_generate (tr ++ mmap_calls h params) h prompt
      (flux2_to_flux_params dflt params) = none) :
    flux2_generate_to_file K dflt (some h) (some prompt) (some out) params tr =
      (-2, tr ++ mmap_calls h params ++
        [Call.generate h prompt (flux2_to_flux_params dflt params)]) ∧
    ∀ x ∈ mmap_calls h params ++ [Call.generate h prompt (flux2_to_flux_params dflt params)],
      (∀ a q s, x ≠ Call.image_save_with_seed a q s) ∧ (∀ a, x ≠ Call.image_free a) := by
  refine ⟨?_, ?_⟩
  · rw [generate_to_file_valid K dflt h prompt out params tr hp ho, hg]
  · intro x hx
    simp only [List.mem_append, List.mem_singleton] at hx
    rcases hx with hx | hx
    · obtain ⟨f, hf⟩ := mem_mmap_calls hx
      subst hf
      exact ⟨fun a q s e => (by cases e), fun a e => (by cases e)⟩
    · subst hx
      exact ⟨fun a q s e => (by cases e), fun a e => (by cases e)⟩

/-- C5 on a runtime whose generate fails, with the scenario configuration. -/
theorem C5_generation_failure_witness :
    ("a red fox" ≠ "" ∧ "out.png" ≠ "" ∧
      runtime_generate_fails.flux_generate ([] ++ mmap_calls 1 (some scenario_config)) 1
        "a red fox" (flux2_to_flux_params sample_default (some scenario_config)) = none) ∧
    flux2_generate_to_file runtime_generate_fails sample_default (some 1) (some "a red fox")
        (some "out.png") (some scenario_config) [] =
      (-2, [] ++ mmap_calls 1 (some scenario_config) ++
        [Call.generate 1 "a red fox" (flux2_to_flux_params sample_default (some scenario_config))]) :=
  ⟨⟨by decide, by decide, rfl⟩,
    (C5_generation_failure runtime_generate_fails sample_default 1 "a red fox" "out.png"
      (some scenario_config) [] (by decide) (by decide) rfl).1⟩

/-- C6: on valid arguments, when `flux_generate` yields an image `a`, the calls
made are the mmap toggle, generate, save on `a`, then `flux_image_free` on `a`
right after the save, then the text-encoder release; `flux_image_free` occurs
nowhere else, so it is called exactly once, for either outcome of the save.
The result is 0 when save reports zero and -3 when it reports a non-zero
value. -/
theorem C6_image_released_once (K : Collaborator) (dflt : flux_params) (h : flux_ctx)
    (prompt out : String) (params : Option flux2_params) (tr : List Call) (a : flux_image)
    (hp : prompt ≠ "") (ho : out ≠ "")
    (hg : K.flux_generate (tr ++ mmap_calls h params) h prompt
      (flux2_to_flux_params dflt params) = some a) :
    (flux2_generate_to_file K dflt (some h) (some prompt) (some out) params tr).2 =
      tr ++ (mmap_calls h params ++
          [Call.generate h prompt (flux2_to_flux_params dflt params),
           Call.image_save_with_seed a out (flux2_to_flux_params dflt params).seed]) ++
        [Call.image_free a] ++ release_calls h params ∧
    (∀ x ∈ mmap_calls h params ++
          [Call.generate h prompt (flux2_to_flux_params dflt params),
           Call.image_save_with_seed a out (flux2_to_flux_params dflt params).seed],
        ∀ b, x ≠ Call.image_free b) ∧
    (∀ x ∈ release_calls h params, ∀ b, x ≠ Call.image_free b) ∧
    (K.flux_image_save_with_seed
        (tr ++ mmap_calls h params ++ [Call.generate h prompt (flux2_to_flux_params dflt params)])
        a out (flux2_to_flux_params dflt params).seed = 0 →
      (flux2_generate_to_file K dflt (some h) (some prompt) (some out) params tr).1 = 0) ∧
    (K.flux_image_save_with_seed
        (tr ++ mmap_calls h params ++ [Call.generate h prompt (flux2_to_flux_params dflt params)])
        a out (flux2_to_flux_params dflt params).seed ≠ 0 →
      (flux2_generate_to_file K dflt (some h) (some prompt) (some out) params tr).1 = -3) := by
  rw [generate_to_file_valid K dflt h prompt out params tr hp ho, hg]
  dsimp only
  refine ⟨by simp, ?_, ?_, fun hs => (by rw [if_pos hs]), fun hs => (by rw [if_neg hs])⟩
  · intro x hx b hxe
    subst hxe
    simp only [List.mem_append, List.mem_cons, List.mem_singleton, List.not_mem_nil,
      or_false] at hx
    rcases hx with hx | hx | hx
    · obtain ⟨f, hf⟩ := mem_mmap_calls hx
      cases hf
    · cases hx
    · cases hx
  · intro x hx b hxe
    subst hxe
    cases mem_release_calls hx

/-- C6 on a runtime whose save fails: the image is still released and the
result is -3. -/
theorem C6_image_released_once_witness :
    ("a red fox" ≠ "" ∧ "out.png" ≠ "" ∧
      runtime_save_fails.flux_generate ([] ++ mmap_calls 1 (some scenario_config)) 1
        "a red fox" (flux2_to_flux_params sample_default (some scenario_config)) = some 2 ∧
      runtime_save_fails.flux_image_save_with_seed
        ([] ++ mmap_calls 1 (some scenario_config) ++
          [Call.generate 1 "a red fox" (flux2_to_flux_params sample_default (some scenario_config))])
        2 "out.png" (flux2_to_flux_params sample_default (some scenario_config)).seed ≠ 0) ∧
    (flux2_generate_to_file runtime_save_fails sample_default (some 1) (some "a red fox")
        (some "out.png") (some scenario_config) []).1 = -3 :=
  ⟨⟨by decide, by decide, rfl, by decide⟩,
    (C6_image_released_once runtime_save_fails sample_default 1 "a red fox" "out.png"
      (some scenario_config) [] 2 (by decide) (by decide) rfl).2.2.2.2 (by decide)⟩

/-- C7: with a non-empty model directory, when `flux_load_dir` returns a handle
`h`, the calls of `flux2_generate_to_file_with_model` end with `flux_free` on
`h` and contain no other `flux_free`, and the result is the result of the
delegated `flux2_generate_to_file` (one of 0, -1, -2, -3); when `flux_load_dir`
fails the only call is the load and the result is -2. -/
theorem C7_handle_freed_once (K : Collaborator) (dflt : flux_params) (dir : String)
    (prompt output_path : Option String) (params : Option flux2_params) (tr : List Call)
    (hd : dir ≠ "") :
    (∀ h, K.flux_load_dir tr dir = some h →
      ∃ ev,
        flux2_generate_to_file_with_model K dflt (some dir) prompt output_path params tr =
          ((flux2_generate_to_file K dflt (some h) prompt output_path params
              (flux2_load_model K (some dir) params tr).2).1,
            tr ++ ev ++ [Call.free h]) ∧
        (∀ x ∈ ev, ∀ h2, x ≠ Call.free h2) ∧
        ((flux2_generate_to_file_with_model K dflt (some dir) prompt output_path params tr).1 = 0 ∨
          (flux2_generate_to_file_with_model K dflt (some dir) prompt output_path params tr).1 = -1 ∨
          (flux2_generate_to_file_with_model K dflt (some dir) prompt output_path params tr).1 = -2 ∨
          (flux2_generate_to_file_with_model K dflt (some dir) prompt output_path params tr).1 = -3)) ∧
    (K.flux_load_dir tr dir = none →
      flux2_generate_to_file_with_model K dflt (some dir) prompt output_path params tr =
        (-2, tr ++ [Call.load_dir dir])) := by
  rw [with_model_nonempty K dflt dir prompt output_path params tr hd,
    load_model_nonempty K dir params tr hd]
  refine ⟨fun h hl => ?_, fun hl => by rw [hl]⟩
  rw [hl]
  obtain ⟨ev, hev, hfree, hst⟩ := generate_to_file_no_free K dflt (some h) prompt output_path
    params (tr ++ [Call.load_dir dir] ++ mmap_calls h params)
  refine ⟨[Call.load_dir dir] ++ mmap_calls h params ++ ev, ?_, ?_, hst⟩
  · dsimp only
    rw [hev]
    simp
  · intro x hx h2 hxe
    subst hxe
    simp only [List.mem_append, List.mem_singleton] at hx
    rcases hx with (hx | hx) | hx
    · cases hx
    · obtain ⟨f, hf⟩ := mem_mmap_calls hx
      cases hf
    · exact hfree _ hx h2 rfl

/-- C7 on a runtime whose save fails: the delegated result -3 is returned and
the handle is freed last. -/
theorem C7_handle_freed_once_witness :
    ("models/v1" ≠ "" ∧ runtime_save_fails.flux_load_dir [] "models/v1" = some 1) ∧
    ∃ ev,
      flux2_generate_to_file_with_model runtime_save_fails sample_default (some "models/v1")
          (some "a red fox") (some "out.png") (some scenario_config) [] =
        ((flux2_generate_to_file runtime_save_fails sample_default (some 1) (some "a red fox")
            (some "out.png") (some scenario_config)
            (flux2_load_model runtime_save_fails (some "models/v1")
              (some scenario_config) []).2).1,
          [] ++ ev ++ [Call.free 1]) ∧
      (∀ x ∈ ev, ∀ h2, x ≠ Call.free h2) ∧
      ((flux2_generate_to_file_with_model runtime_save_fails sample_default (some "models/v1")
          (some "a red fox") (some "out.png") (some scenario_config) []).1 = 0 ∨
        (flux2_generate_to_file_with_model runtime_save_fails sample_default (some "models/v1")
          (some "a red fox") (some "out.png") (some scenario_config) []).1 = -1 ∨
        (flux2_generate_to_file_with_model runtime_save_fails sample_default (some "models/v1")
          (some "a red fox") (some "out.png") (some scenario_config) []).1 = -2 ∨
        (flux2_generate_to_file_with_model runtime_save_fails sample_default (some "models/v1")
          (some "a red fox") (some "out.png") (some scenario_config) []).1 = -3) :=
  ⟨⟨by decide, rfl⟩,
    (C7_handle_freed_once runtime_save_fails sample_default "models/v1" (some "a red fox")
      (some "out.png") (some scenario_config) [] (by decide)).1 1 rfl⟩

/-- C8, as stated, fails: in the scenario (directory "models/v1", prompt
"a red fox", empty output path, the scenario configuration) a runtime whose
load succeeds is called three times (load, mmap toggle, free) before -1 is
returned, and on a runtime whose load fails the result is -2. -/
theorem C8_scenario_counterexample :
    flux2_generate_to_file_with_model runtime_ok sample_default (some "models/v1")
        (some "a red fox") (some "") (some scenario_config) [] =
      (-1, [Call.load_dir "models/v1", Call.set_mmap 1 1, Call.free 1]) ∧
    flux2_generate_to_file_with_model runtime_ok sample_default (some "models/v1")
        (some "a red fox") (some "") (some scenario_config) [] ≠ (-1, []) ∧
    flux2_generate_to_file_with_model runtime_load_fails sample_default (some "models/v1")
        (some "a red fox") (some "") (some scenario_config) [] =
      (-2, [Call.load_dir "models/v1"]) := by
  refine ⟨by decide, by decide, by decide⟩

/-- C8, amended: in the scenario the wrapper first calls `flux_load_dir` on
"models/v1".  If the load fails, that is the only call and the result is -2.
If the load returns a handle `h`, the calls are exactly the load, the mmap
toggle on `h` with flag 1 and `flux_free` on `h`, and the result is -1.  In
both cases neither generate nor save is called. -/
theorem C8_scenario_amended (K : Collaborator) (dflt : flux_params) (tr : List Call) :
    flux2_generate_to_file_with_model K dflt (some "models/v1") (some "a red fox") (some "")
        (some scenario_config) tr =
      match K.flux_load_dir tr "models/v1" with
      | none => (-2, tr ++ [Call.load_dir "models/v1"])
      | some h => (-1, tr ++ [Call.load_dir "models/v1", Call.set_mmap h 1, Call.free h]) := by
  rw [with_model_nonempty K dflt "models/v1" (some "a red fox") (some "")
    (some scenario_config) tr (by decide)]
  cases K.flux_load_dir tr "models/v1" with
  | none => rfl
  | some h =>
    dsimp only
    rw [generate_to_file_invalid K dflt (some h) (some "a red fox") (some "")
      (some scenario_config) _ (Or.inr (Or.inr (Or.inr (Or.inr rfl))))]
    simp [mmap_calls, mmap_flag, scenario_config]

/-- C9: `flux2_load_model` with a null or an empty model directory returns null
and `flux2_free_model` with a null handle returns; in all three cases the trace
is unchanged, so no call is made to the runtime, whatever the configuration. -/
theorem C9_null_lifecycle_inputs (K : Collaborator) (params : Option flux2_params)
    (tr : List Call) :
    flux2_load_model K none params tr = (none, tr) ∧
    flux2_load_model K (some "") params tr = (none, tr) ∧
    flux2_free_model none tr = ((), tr) :=
  ⟨rfl, by simp [flux2_load_model], rfl⟩

/-- C10: on valid arguments the result and the calls of `flux2_generate_to_file`
are: the mmap toggle on the handle with flag 1 or 0 (as `use_mmap` is non-zero or
zero), present exactly when a configuration is supplied; then generate with the
merged configuration; then, if generate yielded no image, nothing more and
status -2; otherwise save with the merged seed, release of the image, and the
text-encoder release exactly when a configuration is supplied with a non-zero
`release_text_encoder`, with status 0 or -3 as save reported zero or not.  Two
successive calls on the same handle each begin with their own toggle. -/
theorem C10_call_sequence (K : Collaborator) (dflt : flux_params) (h : flux_ctx)
    (prompt out : String) (params : Option flux2_params) (tr : List Call)
    (hp : prompt ≠ "") (ho : out ≠ "") :
    (flux2_generate_to_file K dflt (some h) (some prompt) (some out) params tr =
      match K.flux_generate (tr ++ mmap_calls h params) h prompt
          (flux2_to_flux_params dflt params) with
      | none =>
        (-2, tr ++ mmap_calls h params ++
          [Call.generate h prompt (flux2_to_flux_params dflt params)])
      | some a =>
        (if K.flux_image_save_with_seed
              (tr ++ mmap_calls h params ++
                [Call.generate h prompt (flux2_to_flux_params dflt params)])
              a out (flux2_to_flux_params dflt params).seed = 0 then 0 else -3,
          tr ++ mmap_calls h params ++
            [Call.generate h prompt (flux2_to_flux_params dflt params),
             Call.image_save_with_seed a out (flux2_to_flux_params dflt params).seed,
             Call.image_free a] ++ release_calls h params)) ∧
    (∀ c, mmap_calls h (some c) = [Call.set_mmap h (if c.use_mmap ≠ 0 then 1 else 0)]) ∧
    mmap_calls h none = [] ∧
    (∀ c, release_calls h (some c) =
      if c.release_text_encoder ≠ 0 then [Call.release_text_encoder h] else []) ∧
    release_calls h none = [] ∧
    (∀ (c1 c2 : flux2_params) (prompt2 out2 : String), prompt2 ≠ "" → out2 ≠ "" →
      ∃ ev1 ev2,
        (flux2_generate_to_file K dflt (some h) (some prompt) (some out) (some c1) tr).2 =
          tr ++ [Call.set_mmap h (if c1.use_mmap ≠ 0 then 1 else 0)] ++ ev1 ∧
        (flux2_generate_to_file K dflt (some h) (some prompt2) (some out2) (some c2)
            (flux2_generate_to_file K dflt (some h) (some prompt) (some out) (some c1) tr).2).2 =
          (flux2_generate_to_file K dflt (some h) (some prompt) (some out) (some c1) tr).2 ++
            [Call.set_mmap h (if c2.use_mmap ≠ 0 then 1 else 0)] ++ ev2 ∧
        (∀ x ∈ ev1 ++ ev2, ∀ h2 f, x ≠ Call.set_mmap h2 f)) := by
  have key : ∀ (c : flux2_params) (p o : String) (t : List Call), p ≠ "" → o ≠ "" →
      ∃ ev, (flux2_generate_to_file K dflt (some h) (some p) (some o) (some c) t).2 =
          t ++ [Call.set_mmap h (if c.use_mmap ≠ 0 then 1 else 0)] ++ ev ∧
        ∀ x ∈ ev, ∀ h2 f, x ≠ Call.set_mmap h2 f := by
    intro c p o t hp2 ho2
    rw [generate_to_file_valid K dflt h p o (some c) t hp2 ho2]
    cases K.flux_generate (t ++ mmap_calls h (some c)) h p (flux2_to_flux_params dflt (some c)) with
    | none =>
      refine ⟨[Call.generate h p (flux2_to_flux_params dflt (some c))],
        by simp [mmap_calls, mmap_flag], ?_⟩
      intro x hx h2 f hxe
      subst hxe
      simp at hx
    | some a =>
      refine ⟨[Call.generate h p (flux2_to_flux_params dflt (some c)),
          Call.image_save_with_seed a o (flux2_to_flux_params dflt (some c)).seed,
          Call.image_free a] ++ release_calls h (some c),
        by simp [mmap_calls, mmap_flag], ?_⟩
      intro x hx h2 f hxe
      subst hxe
      simp only [List.mem_append, List.mem_cons, List.mem_singleton, List.not_mem_nil,
        or_false] at hx
      rcases hx with (hx | hx | hx) | hx
      · cases hx
      · cases hx
      · cases hx
      · cases mem_release_calls hx
  refine ⟨generate_to_file_valid K dflt h prompt out params tr hp ho, fun c => rfl, rfl,
    fun c => rfl, rfl, ?_⟩
  intro c1 c2 prompt2 out2 hp2 ho2
  obtain ⟨ev1, h1, n1⟩ := key c1 prompt out tr hp ho
  obtain ⟨ev2, h2, n2⟩ := key c2 prompt2 out2
    (flux2_generate_to_file K dflt (some h) (some prompt) (some out) (some c1) tr).2 hp2 ho2
  refine ⟨ev1, ev2, h1, h2, ?_⟩
  intro x hx
  rcases List.mem_append.mp hx with hx | hx
  · exact n1 x hx
  · exact n2 x hx

/-- C10 on a runtime where everything succeeds, with the scenario
configuration: the calls are toggle with flag 1, generate, save with seed 42,
image release, and no text-encoder release; the status is 0. -/
theorem C10_call_sequence_witness :
    ("a red fox" ≠ "" ∧ "out.png" ≠ "") ∧
    flux2_generate_to_file runtime_ok sample_default (some 1) (some "a red fox")
        (some "out.png") (some scenario_config) [] =
      (0, [Call.set_mmap 1 1, Call.generate 1 "a red fox" ⟨256, 256, 4, 42⟩,
           Call.image_save_with_seed 2 "out.png" 42, Call.image_free 2]) :=
  ⟨⟨by decide, by decide⟩,
    (C10_call_sequence runtime_ok sample_default 1 "a red fox" "out.png" (some scenario_config) []
      (by decide) (by decide)).1⟩

/-- The scenario with a valid output path, evaluated: status 0 and the calls
load, toggle 1, toggle 1, generate with the defaults and seed 42, save with
seed 42, image release, free. -/
theorem scenario_success_run :
    flux2_generate_to_file_with_model runtime_ok sample_default (some "models/v1")
        (some "a red fox") (some "out.png") (some scenario_config) [] =
      (0, [Call.load_dir "models/v1", Call.set_mmap 1 1, Call.set_mmap 1 1,
           Call.generate 1 "a red fox" ⟨256, 256, 4, 42⟩,
           Call.image_save_with_seed 2 "out.png" 42, Call.image_free 2, Call.free 1]) := by
  decide

end Flux2
